import Mathlib

/-!
Verification development for the nexus repository (src/src-tauri/src).

The Rust source is shallowly embedded: each Rust function of the polling
scheduler, plugin runtime and notification policy is translated into an
executable Lean definition, and the specification claims are settled as
theorems about those definitions.

Modelling conventions:
* Rust `&str` values are Lean `String`s; where Rust compares strings
  byte-wise (`<=` on `&str`) we compare the underlying character lists
  lexicographically by code point (`strLe`/`strLt` below), which agrees
  with byte-wise comparison on valid UTF-8.
* Where the byte structure itself matters (the 200-byte payload preview of
  `parse_plugin_result`) strings are modelled as lists of bytes (`List Nat`).
* Rust machine integers (`i64`) are modelled as `Int`; `i64::MAX` is the
  explicit constant `i64Max`.
* `rusqlite::Result` is modelled as `Except Unit`; the SQLite tables are
  modelled as Lean lists with the SQL statements of `db.rs` translated into
  list operations.
-/

namespace Nexus

/-- Byte-wise `&str` comparison, modelled as lexicographic comparison of the
code-point lists (equivalent on valid UTF-8). `strLt a b` is `a < b`. -/
def strLt (a b : List Char) : Bool :=
  match a, b with
  | [], [] => false
  | [], _ :: _ => true
  | _ :: _, [] => false
  | c :: cs, d :: ds =>
    if c.toNat < d.toNat then true
    else if d.toNat < c.toNat then false
    else strLt cs ds

/-- Comparison `a <= b` on `&str`, as the negation of `b < a`. -/
def strLe (a b : List Char) : Bool := !(strLt b a)

/-- Lemma: `strLt` is exactly lexicographic order (`List.Lex`) by code point. -/
theorem strLt_iff_lex (a b : List Char) :
    strLt a b = true ↔ List.Lex (fun c d : Char => c.toNat < d.toNat) a b := by
  induction a generalizing b with
  | nil =>
    cases b with
    | nil =>
      constructor
      · intro h; simp [strLt] at h
      · intro h; cases h
    | cons d ds =>
      constructor
      · intro _; exact List.Lex.nil
      · intro _; rfl
  | cons c cs ih =>
    cases b with
    | nil =>
      constructor
      · intro h; simp [strLt] at h
      · intro h; cases h
    | cons d ds =>
      by_cases h1 : c.toNat < d.toNat
      · constructor
        · intro _; exact List.Lex.rel h1
        · intro _; simp [strLt, h1]
      · by_cases h2 : d.toNat < c.toNat
        · constructor
          · intro h; simp [strLt, h1, h2] at h
          · intro h
            cases h with
            | cons h' => omega
            | rel h' => omega
        · have hcd : c = d := Char.ext (UInt32.ext (by
            have e1 : c.val.toNat = c.toNat := rfl
            have e2 : d.val.toNat = d.toNat := rfl
            omega))
          subst hcd
          constructor
          · intro h
            have hh : strLt cs ds = true := by simpa [strLt, h1, h2] using h
            exact List.Lex.cons ((ih ds).mp hh)
          · intro h
            have hh : strLt cs ds = true := by
              cases h with
              | cons h' => exact (ih ds).mpr h'
              | rel h' => omega
            simpa [strLt, h1, h2] using hh

-- ======================================================================
-- notifications.rs
-- ======================================================================

/-- The fixed signal → human-label lookup of `humanize_reason` in
`notifications.rs`: the `match signal.trim()` arms, with the final
`other => other` fall-through. Strings are modelled as character lists
because `humanize_reason` manipulates the string structure (split / trim /
join). -/
def humanSignal (s : List Char) : List Char :=
  if s = "assigned_to_me".toList ∨ s = "assigned".toList then "Assigned to you".toList
  else if s = "high_priority".toList ∨ s = "priority_p1_blocker".toList then "High priority".toList
  else if s = "deadline_approaching".toList ∨ s = "deadline_24h".toList then "Deadline approaching".toList
  else if s = "mentioned_in_comment".toList ∨ s = "mentioned".toList then "You were mentioned".toList
  else if s = "vip_sender".toList then "VIP sender".toList
  else if s = "unread_over_4h".toList then "Unread for 4+ hours".toList
  else if s = "has_attachment".toList then "Has attachment".toList
  else if s = "pr_review_requested".toList then "Review requested".toList
  else if s = "ci_failed".toList then "CI failed".toList
  else if s = "pr_comment".toList then "Comment on your PR".toList
  else s

/-- Rust `str::split(',')`: splits at every comma, keeping empty pieces
(`"".split(',')` yields one empty piece). -/
def splitComma (cs : List Char) : List (List Char) :=
  match cs with
  | [] => [[]]
  | c :: rest =>
    let r := splitComma rest
    if c = ',' then [] :: r
    else match r with
      | [] => [[c]]
      | h :: t => (c :: h) :: t

/-- ASCII whitespace recognised by `str::trim` (the claims only exercise
ASCII whitespace; exotic Unicode whitespace is out of scope). -/
def isWs (c : Char) : Bool := c = ' ' || c = '\t' || c = '\n' || c = '\r'

/-- Rust `str::trim`: drop whitespace from both ends. -/
def trimChars (cs : List Char) : List Char :=
  ((cs.dropWhile isWs).reverse.dropWhile isWs).reverse

/-- Function `humanize_reason` (notifications.rs lines 9-27): split the reason on
commas, trim each signal, map it through the lookup table (unknown signals
fall through as their trimmed text), and rejoin with `", "`. -/
def humanize_reason (reason : List Char) : List Char :=
  List.intercalate ", ".toList ((splitComma reason).map (fun s => humanSignal (trimChars s)))

/-- Function `urgency_level` (notifications.rs lines 62-70). -/
def urgency_level (u : String) : Nat :=
  if u = "critical" then 4
  else if u = "high" then 3
  else if u = "medium" then 2
  else if u = "low" then 1
  else 0

/-- Function `urgency_meets_threshold` (notifications.rs lines 72-74). -/
def urgency_meets_threshold (u threshold : String) : Bool :=
  decide (urgency_level u ≥ urgency_level threshold)

/-- Function `is_in_quiet_hours` (notifications.rs lines 76-86). The Rust function
reads the current local time internally; the clock reading is the explicit
`now` parameter here. Comparisons are the byte-wise `&str` comparisons of
the source. -/
def is_in_quiet_hours (start_ end_ now : String) : Bool :=
  if strLe start_.toList end_.toList then
    strLe start_.toList now.toList && strLt now.toList end_.toList
  else
    strLe start_.toList now.toList || strLt now.toList end_.toList

/-- The read behaviour of `Database::get_app_setting` as seen by the
notification policy: for each key, either a read error (`Except.error`) or
the stored value (`some`) / absence (`none`). -/
def GetSetting : Type := String → Except Unit (Option String)

/-- The focus-mode half of `should_send_notification` (notifications.rs
lines 42-59): `.ok().flatten().unwrap_or_default()` on the
`focus_mode_enabled` read, then the threshold comparison with default
threshold `"high"`. -/
def focusGate (get : GetSetting) (urgency : String) : Bool :=
  let focus_enabled := ((get "focus_mode_enabled").toOption.join).getD ""
  if focus_enabled = "1" then
    let threshold := ((get "focus_mode_threshold").toOption.join).getD "high"
    urgency_meets_threshold urgency threshold
  else true

/-- Function `should_send_notification` (notifications.rs lines 31-60): quiet hours
are consulted first, and only when both settings read back `Ok(Some _)`;
otherwise control falls through to the focus-mode check. -/
def should_send_notification (get : GetSetting) (now urgency : String) : Bool :=
  match get "quiet_hours_start", get "quiet_hours_end" with
  | .ok (some s), .ok (some e) =>
    if is_in_quiet_hours s e now then false else focusGate get urgency
  | _, _ => focusGate get urgency

/-- The urgency → title-prefix match of `send_native_notification`
(notifications.rs lines 91-96); `none` models the early `return`. -/
def urgencyLabel (u : String) : Option String :=
  if u = "critical" then some "[CRITICAL]"
  else if u = "high" then some "[HIGH]"
  else if u = "medium" then some ""
  else none

/-- Function `send_native_notification` (notifications.rs lines 90-110), reduced to
its observable effect: `none` when no native alert is produced, `some t`
when an alert with title `t` is shown. -/
def send_native_notification (urgency title : String) : Option String :=
  match urgencyLabel urgency with
  | none => none
  | some label => some (if label = "" then title else label ++ " " ++ title)

-- ======================================================================
-- plugin_runtime.rs
-- ======================================================================

/-- JSON values (`serde_json::Value`). Numbers are modelled as integers:
the fields deserialized by the plugin runtime are `i64` timestamps, and no
claim exercises floating-point payloads. -/
inductive Json where
  | null : Json
  | bool (b : Bool) : Json
  | num (n : Int) : Json
  | str (s : String) : Json
  | arr (elems : List Json) : Json
  | obj (fields : List (String × Json)) : Json
  deriving Repr

/-- First binding of a key in a JSON object (serde reads fields by name;
extra fields are ignored by default). -/
def lookupField (fields : List (String × Json)) (key : String) : Option Json :=
  match fields with
  | [] => none
  | (k, v) :: rest => if k = key then some v else lookupField rest key

/-- Struct `PluginItem` (plugin_runtime.rs lines 13-28). Serde renames:
JSON `sourceId` → `source_id`, JSON `type` → `item_type`. -/
structure PluginItem where
  id : String
  source : String
  source_id : String
  item_type : String
  title : String
  summary : Option String
  url : String
  author : Option String
  timestamp : Int
  metadata : Json
  tags : List String
  deriving Repr

/-- Struct `PluginNotification` (plugin_runtime.rs lines 30-36). Serde rename:
JSON `itemId` → `item_id`. -/
structure PluginNotification where
  item_id : String
  reason : String
  urgency : String
  deriving Repr, DecidableEq

/-- Struct `PluginResult` (plugin_runtime.rs lines 38-42): both `items` and
`notifications` are required fields. -/
structure PluginResult where
  items : List PluginItem
  notifications : List PluginNotification
  deriving Repr

/-- Serde: a required field must be present. -/
def reqField (fields : List (String × Json)) (key : String)
    (dec : Json → Except String α) : Except String α :=
  match lookupField fields key with
  | some v => dec v
  | none => .error ("missing field " ++ key)

/-- Serde `String` deserialization. -/
def decodeString : Json → Except String String
  | .str s => .ok s
  | _ => .error "expected string"

/-- Serde `Option<String>`: an absent field and a `null` both give `None`. -/
def decodeOptString (v : Option Json) : Except String (Option String) :=
  match v with
  | none => .ok none
  | some .null => .ok none
  | some (.str s) => .ok (some s)
  | some _ => .error "expected string or null"

/-- Serde `i64` deserialization. -/
def decodeInt : Json → Except String Int
  | .num n => .ok n
  | _ => .error "expected integer"

/-- Serde `Vec<String>` deserialization. -/
def decodeStringList : Json → Except String (List String)
  | .arr elems => go elems
  | _ => .error "expected array"
where
  go : List Json → Except String (List String)
  | [] => .ok []
  | v :: rest => do
    let s ← decodeString v
    let tail ← go rest
    .ok (s :: tail)

/-- Serde deserialization of one `PluginItem` object. -/
def decodePluginItem (j : Json) : Except String PluginItem :=
  match j with
  | .obj fields => do
    let id ← reqField fields "id" decodeString
    let source ← reqField fields "source" decodeString
    let source_id ← reqField fields "sourceId" decodeString
    let item_type ← reqField fields "type" decodeString
    let title ← reqField fields "title" decodeString
    let summary ← decodeOptString (lookupField fields "summary")
    let url ← reqField fields "url" decodeString
    let author ← decodeOptString (lookupField fields "author")
    let timestamp ← reqField fields "timestamp" decodeInt
    let metadata ← reqField fields "metadata" (fun v => .ok v)
    let tags ← reqField fields "tags" decodeStringList
    .ok ⟨id, source, source_id, item_type, title, summary, url, author,
         timestamp, metadata, tags⟩
  | _ => .error "expected object"

/-- Serde deserialization of one `PluginNotification` object. -/
def decodePluginNotification (j : Json) : Except String PluginNotification :=
  match j with
  | .obj fields => do
    let item_id ← reqField fields "itemId" decodeString
    let reason ← reqField fields "reason" decodeString
    let urgency ← reqField fields "urgency" decodeString
    .ok ⟨item_id, reason, urgency⟩
  | _ => .error "expected object"

/-- Serde `Vec<T>` deserialization given an element decoder. -/
def decodeListWith (dec : Json → Except String α) : Json → Except String (List α)
  | .arr elems => go elems
  | _ => .error "expected array"
where
  go : List Json → Except String (List α)
  | [] => .ok []
  | v :: rest => do
    let x ← dec v
    let tail ← go rest
    .ok (x :: tail)

/-- Serde deserialization of `PluginResult`: both top-level keys are
required; a missing key is an error, not an empty default. -/
def decodePluginResult (j : Json) : Except String PluginResult :=
  match j with
  | .obj fields => do
    let items ← reqField fields "items" (decodeListWith decodePluginItem)
    let notifications ←
      reqField fields "notifications" (decodeListWith decodePluginNotification)
    .ok ⟨items, notifications⟩
  | _ => .error "expected object"

/-- Function `parse_plugin_result` (plugin_runtime.rs lines 100-105) at the JSON
value level: the raw output is given as `none` when it is not
syntactically valid JSON, or `some j` for its parsed JSON value; the typed
deserialization into `PluginResult` follows serde semantics. -/
def parse_plugin_result (raw : Option Json) : Except String PluginResult :=
  match raw with
  | none => .error "Failed to parse plugin result: invalid JSON"
  | some j =>
    match decodePluginResult j with
    | .ok r => .ok r
    | .error e => .error ("Failed to parse plugin result: " ++ e)

/-- Rust `str::is_char_boundary` on a UTF-8 byte string: index 0 and the
end are boundaries, and an interior index is a boundary exactly when the
byte there is not a continuation byte (`0x80..0xBF`). -/
def is_char_boundary (bytes : List Nat) (i : Nat) : Bool :=
  if i = 0 then true
  else if i = bytes.length then true
  else
    match bytes.get? i with
    | none => false
    | some b => decide (b < 128) || decide (192 ≤ b)

/-- The payload-preview construction on the error path of
`parse_plugin_result` (plugin_runtime.rs line 102):
`if json.len() > 200 { &json[..200] } else { json }` at the byte level.
Rust slicing `&json[..200]` panics when byte index 200 is not a character
boundary; the panic is modelled as `none`. -/
def payload_preview (json : List Nat) : Option (List Nat) :=
  if json.length > 200 then
    if is_char_boundary json 200 then some (json.take 200) else none
  else some json

-- ======================================================================
-- models.rs
-- ======================================================================

/-- Struct `NexusItem` (models.rs). `metadata` / `tags` are stored as TEXT in
SQLite; the serialization `serde_json::to_string` is abstracted and the
fields hold the value being serialized (`Json` / `List String`). -/
structure NexusItem where
  id : String
  source : String
  source_id : String
  item_type : String
  title : String
  summary : Option String
  url : String
  author : Option String
  timestamp : Int
  priority : Int
  metadata : Option Json
  tags : Option (List String)
  is_read : Bool
  created_at : Int
  updated_at : Int
  deriving Repr

/-- Struct `Notification` (models.rs). -/
structure Notification where
  id : String
  item_id : String
  reason : String
  urgency : String
  is_dismissed : Bool
  created_at : Int
  deriving Repr, DecidableEq

/-- Struct `PluginConfig` (models.rs). -/
structure PluginConfig where
  plugin_id : String
  is_enabled : Bool
  credentials : Option String
  poll_interval_secs : Int
  last_poll_at : Option Int
  last_error : Option String
  error_count : Int
  settings : Option String
  deriving Repr, DecidableEq

-- ======================================================================
-- db.rs (Store operations used by the scheduler and notification policy)
-- ======================================================================

/-- The `ON CONFLICT(source, source_id) DO UPDATE SET ...` clause of
`upsert_item` (db.rs lines 140-143): the stored row keeps its `id`,
`item_type`, `is_read` and `created_at`, and takes the incoming `title`,
`summary`, `url`, `author`, `timestamp`, `priority`, `metadata`, `tags`
and `updated_at`. -/
def contentUpdate (it old : NexusItem) : NexusItem :=
  { old with
    title := it.title, summary := it.summary, url := it.url,
    author := it.author, timestamp := it.timestamp, priority := it.priority,
    metadata := it.metadata, tags := it.tags, updated_at := it.updated_at }

/-- Whether a stored row conflicts with the incoming item on the
`UNIQUE(source, source_id)` key. -/
def sameSourceKey (it old : NexusItem) : Bool :=
  decide (old.source = it.source) && decide (old.source_id = it.source_id)

/-- Method `Database::upsert_item` (db.rs lines 135-163): insert, or on a
`(source, source_id)` conflict update only the content fields. -/
def upsert_item (store : List NexusItem) (it : NexusItem) : List NexusItem :=
  if store.any (sameSourceKey it) then
    store.map (fun old => if sameSourceKey it old then contentUpdate it old else old)
  else it :: store

/-- Method `Database::insert_notification` (db.rs lines 222-236):
`INSERT OR IGNORE` keyed on the notification `id`. -/
def insert_notification (store : List Notification) (n : Notification) : List Notification :=
  if store.any (fun m => decide (m.id = n.id)) then store else n :: store

/-- Method `Database::has_active_notification` (db.rs lines 267-274):
`COUNT(*) > 0` over rows with the given `item_id` and `reason` and
`is_dismissed = 0`. -/
def has_active_notification (store : List Notification) (itemId reason : String) : Bool :=
  store.any fun n =>
    decide (n.item_id = itemId) && decide (n.reason = reason) && !n.is_dismissed

/-- Method `Database::get_plugin_config` (db.rs lines 308-328): the row with the
given `plugin_id`, if any. -/
def get_plugin_config (configs : List PluginConfig) (pluginId : String) : Option PluginConfig :=
  configs.find? fun c => decide (c.plugin_id = pluginId)

/-- Method `Database::upsert_plugin_config` (db.rs lines 330-352): insert, or on a
`plugin_id` conflict replace every non-key field with the incoming values
(the `DO UPDATE SET` lists all of them). -/
def upsert_plugin_config (configs : List PluginConfig) (cfg : PluginConfig) : List PluginConfig :=
  if configs.any (fun c => decide (c.plugin_id = cfg.plugin_id)) then
    configs.map (fun c => if c.plugin_id = cfg.plugin_id then cfg else c)
  else cfg :: configs

/-- Method `Database::get_enabled_plugin_configs` (db.rs lines 355-374):
`WHERE is_enabled = 1 AND credentials IS NOT NULL`. -/
def get_enabled_plugin_configs (configs : List PluginConfig) : List PluginConfig :=
  configs.filter fun c => c.is_enabled && c.credentials.isSome

/-- The Store state touched by `poll_plugin`: the three tables it reads and
writes. -/
structure Store where
  items : List NexusItem
  notifications : List Notification
  configs : List PluginConfig
  deriving Repr

-- ======================================================================
-- scheduler.rs
-- ======================================================================

/-- The `NexusItem` built from a `PluginItem` in the persist phase
(scheduler.rs lines 69-95): `priority = 0`, `is_read = false`,
`created_at = updated_at = now`, metadata/tags serialized. -/
def itemOfPluginItem (now : Int) (pi : PluginItem) : NexusItem :=
  { id := pi.id, source := pi.source, source_id := pi.source_id,
    item_type := pi.item_type, title := pi.title, summary := pi.summary,
    url := pi.url, author := pi.author, timestamp := pi.timestamp,
    priority := 0, metadata := some pi.metadata, tags := some pi.tags,
    is_read := false, created_at := now, updated_at := now }

/-- The item loop of the persist phase (scheduler.rs lines 68-97): upsert
every fetched item. -/
def persistItems (now : Int) (items : List NexusItem) : List PluginItem → List NexusItem
  | [] => items
  | pi :: rest => persistItems now (upsert_item items (itemOfPluginItem now pi)) rest

/-- The notification loop of the persist phase (scheduler.rs lines
99-123): a candidate whose `(item_id, reason)` already has an active
notification is skipped; otherwise it is inserted with a fresh id
(`Uuid::new_v4`, modelled by the generator `gen` at index `k`) and
`created_at = now`. -/
def persistNotifications (now : Int) (gen : Nat → String) :
    Nat → List Notification → List PluginNotification → List Notification
  | _, store, [] => store
  | k, store, pn :: rest =>
    if has_active_notification store pn.item_id pn.reason then
      persistNotifications now gen k store rest
    else
      persistNotifications now gen (k + 1)
        (insert_notification store
          ⟨gen k, pn.item_id, pn.reason, pn.urgency, false, now⟩) rest

/-- Method `Scheduler::poll_plugin` (scheduler.rs lines 26-136). Phase 1 reads the
config and fails on a missing config, a disabled plugin or missing
credentials; phase 2 runs the plugin subprocess (its outcome is the
`rawOutput` parameter: `Except.error` for an execution failure, otherwise
the raw output as in `parse_plugin_result`) and parses the result; phase 3
persists items, notifications and the poll bookkeeping
(`last_poll_at = now`, `last_error` cleared, `error_count` reset). The
returned `Store` is the state after the call: every error path leaves it
unchanged. -/
def poll_plugin (store : Store) (pluginId : String) (fileExists : Bool)
    (rawOutput : Except String (Option Json)) (now : Int) (gen : Nat → String) :
    Store × Except String Nat :=
  match get_plugin_config store.configs pluginId with
  | none => (store, .error ("Plugin " ++ pluginId ++ " not configured"))
  | some config =>
    if !config.is_enabled then
      (store, .error ("Plugin " ++ pluginId ++ " is disabled"))
    else
      match config.credentials with
      | none => (store, .error ("Plugin " ++ pluginId ++ " has no credentials"))
      | some _ =>
        if !fileExists then
          (store, .error "Plugin file not found")
        else
          match rawOutput with
          | .error e => (store, .error e)
          | .ok raw =>
            match parse_plugin_result raw with
            | .error e => (store, .error e)
            | .ok result =>
              let items' := persistItems now store.items result.items
              let notifs' :=
                persistNotifications now gen 0 store.notifications result.notifications
              let cfg' := { config with
                last_poll_at := some now, last_error := none, error_count := 0 }
              let configs' := upsert_plugin_config store.configs cfg'
              (⟨items', notifs', configs'⟩, .ok result.items.length)

/-- Constant `i64::MAX`. -/
def i64Max : Int := 9223372036854775807

/-- The due check of the heartbeat loop (scheduler.rs lines 162-171):
`elapsed = now - last_poll_at` (or `i64::MAX` when never polled), and the
plugin is skipped exactly when `elapsed < poll_interval_secs`. -/
def isDue (c : PluginConfig) (now : Int) : Bool :=
  let elapsed : Int :=
    match c.last_poll_at with
    | some last => now - last
    | none => i64Max
  !decide (elapsed < c.poll_interval_secs)

/-- The set of plugins the heartbeat loop polls in one tick
(scheduler.rs lines 153-171): the enabled configs with credentials,
restricted to those whose interval has elapsed. -/
def heartbeatDuePlugins (configs : List PluginConfig) (now : Int) : List PluginConfig :=
  (get_enabled_plugin_configs configs).filter (fun c => isDue c now)

-- ======================================================================
-- Theorems
-- ======================================================================

/-- Lexicographic (code-point) strict order on strings, the mathematical
reading of byte-wise `&str` comparison. -/
def charLex (a b : String) : Prop :=
  List.Lex (fun c d : Char => c.toNat < d.toNat) a.toList b.toList

/-- Lemma: `strLe` is the complement of the reversed lexicographic order. -/
theorem strLe_iff_not_lex (a b : List Char) :
    strLe a b = true ↔ ¬ List.Lex (fun c d : Char => c.toNat < d.toNat) b a := by
  rw [← strLt_iff_lex]
  cases h : strLt b a <;> simp [strLe, h]

/-- Claim C3: for zero-padded HH:MM strings compared lexicographically,
when `start <= end` the quiet-hours check reports `now` inside exactly when
`start <= now < end`; when `start > end` it reports inside exactly when
`now >= start` or `now < end`; and the five concrete examples of the spec
evaluate as stated. -/
theorem quiet_hours_window_correct :
    (∀ start_ end_ now : String,
      (¬ charLex end_ start_ →
        (is_in_quiet_hours start_ end_ now = true ↔
          ¬ charLex now start_ ∧ charLex now end_))
      ∧ (charLex end_ start_ →
        (is_in_quiet_hours start_ end_ now = true ↔
          ¬ charLex now start_ ∨ charLex now end_)))
    ∧ is_in_quiet_hours "22:00" "06:00" "23:30" = true
    ∧ is_in_quiet_hours "22:00" "06:00" "02:00" = true
    ∧ is_in_quiet_hours "22:00" "06:00" "10:00" = false
    ∧ is_in_quiet_hours "09:00" "17:00" "12:00" = true
    ∧ is_in_quiet_hours "09:00" "17:00" "20:00" = false := by
  refine ⟨?_, by decide, by decide, by decide, by decide, by decide⟩
  intro start_ end_ now
  constructor
  · intro hle
    have hb : strLe start_.toList end_.toList = true :=
      (strLe_iff_not_lex _ _).mpr hle
    simp [is_in_quiet_hours, hb, Bool.and_eq_true, strLe_iff_not_lex,
      strLt_iff_lex, charLex]
    intro h
    exact absurd h hle
  · intro hgt
    have hb : strLe start_.toList end_.toList = false := by
      cases h : strLe start_.toList end_.toList
      · rfl
      · exact absurd hgt ((strLe_iff_not_lex _ _).mp h)
    simp [is_in_quiet_hours, hb, Bool.or_eq_true, strLe_iff_not_lex,
      strLt_iff_lex, charLex]
    intro h
    exact absurd hgt h

/-- Witness for C3 at concrete inputs: the same-day window 09:00-17:00 and
the wrapping window 22:00-06:00, instantiated through the theorem. -/
theorem quiet_hours_window_correct_witness :
    (is_in_quiet_hours "09:00" "17:00" "12:00" = true ↔
      ¬ charLex "12:00" "09:00" ∧ charLex "12:00" "17:00")
    ∧ (is_in_quiet_hours "22:00" "06:00" "23:30" = true ↔
      ¬ charLex "23:30" "22:00" ∨ charLex "23:30" "06:00") :=
  ⟨(quiet_hours_window_correct.1 "09:00" "17:00" "12:00").1
      ((strLe_iff_not_lex "09:00".toList "17:00".toList).mp (by decide)),
   (quiet_hours_window_correct.1 "22:00" "06:00" "23:30").2
      ((strLt_iff_lex "06:00".toList "22:00".toList).mp (by decide))⟩

/-- Claim C6: urgencies `low` and unrecognized produce no native alert;
`critical` and `high` produce an alert whose title carries the bracketed
urgency tag; `medium` produces an alert with the bare title. -/
theorem native_alert_gating :
    ∀ (u title : String),
      (u ≠ "critical" → u ≠ "high" → u ≠ "medium" →
        send_native_notification u title = none)
      ∧ send_native_notification "low" title = none
      ∧ send_native_notification "critical" title = some ("[CRITICAL] " ++ title)
      ∧ send_native_notification "high" title = some ("[HIGH] " ++ title)
      ∧ send_native_notification "medium" title = some title := by
  intro u title
  refine ⟨?_, ?_, ?_, ?_, ?_⟩
  · intro h1 h2 h3
    simp [send_native_notification, urgencyLabel, h1, h2, h3]
  · simp [send_native_notification, urgencyLabel]
  · simp [send_native_notification, urgencyLabel]
  · simp [send_native_notification, urgencyLabel]
  · simp [send_native_notification, urgencyLabel]

/-- Witness for C6: an unrecognized urgency string produces no native
alert, via the theorem at concrete inputs. -/
theorem native_alert_gating_witness :
    send_native_notification "telemetry" "Fix login bug" = none
    ∧ send_native_notification "medium" "Fix login bug" = some "Fix login bug" :=
  ⟨(native_alert_gating "telemetry" "Fix login bug").1
      (by decide) (by decide) (by decide),
   (native_alert_gating "medium" "Fix login bug").2.2.2.2⟩

/-- Counterexample to claim C8 as stated: the single code `" x"` is not in
the lookup table (it falls through `humanSignal` unchanged), yet
`humanize_reason` does not return it unchanged — the source trims each
signal before the lookup, so `" x"` comes back as `"x"`. -/
theorem humanize_reason_trims_counterexample :
    humanSignal " x".toList = " x".toList
    ∧ humanize_reason " x".toList = "x".toList
    ∧ " x".toList ≠ "x".toList := by
  refine ⟨by decide, by decide, by decide⟩

/-- Lemma: `str::split(',')` of a comma-free string is the single piece. -/
theorem splitComma_no_comma (cs : List Char) (h : ',' ∉ cs) : splitComma cs = [cs] := by
  induction cs with
  | nil => rfl
  | cons c rest ih =>
    have hc : ¬ (c = ',') := fun e => h (by simp [e])
    have hr : ',' ∉ rest := fun m => h (List.mem_cons_of_mem _ m)
    simp [splitComma, hc, ih hr]

/-- Claim C8 (amended): `humanize_reason` splits the reason on commas,
trims each code, maps the trimmed code through the fixed lookup table
(unrecognized trimmed codes pass through as their trimmed text), and
rejoins with `", "`; in particular a single comma-free code with no
surrounding whitespace that is not in the table is returned unchanged. -/
theorem humanize_reason_amended :
    (∀ reason : List Char,
      humanize_reason reason =
        List.intercalate ", ".toList
          ((splitComma reason).map (fun s => humanSignal (trimChars s))))
    ∧ (∀ code : List Char,
        ',' ∉ code → trimChars code = code → humanSignal code = code →
        humanize_reason code = code)
    ∧ humanize_reason "assigned, vip_sender".toList
        = "Assigned to you, VIP sender".toList := by
  refine ⟨fun _ => rfl, ?_, by decide⟩
  intro code hnc htrim htab
  rw [humanize_reason, splitComma_no_comma code hnc]
  simp [htrim, htab, List.intercalate]

/-- Witness for the amended claim C8: an unknown, well-formed code passes
through `humanize_reason` unchanged. -/
theorem humanize_reason_amended_witness :
    humanize_reason "custom_signal".toList = "custom_signal".toList :=
  humanize_reason_amended.2.1 "custom_signal".toList
    (by decide) (by decide) (by decide)

/-- Claim C1: upserting an item whose `(source, source_id)` pair is already
stored rewrites every matching row through `contentUpdate`, which takes the
incoming content fields (title, summary, url, author, timestamp, priority,
metadata, tags, updated_at) but keeps the stored read flag; and the result
of the upsert does not depend on the incoming read flag at all. -/
theorem upsert_item_preserves_read_flag :
    ∀ (store : List NexusItem) (it old : NexusItem),
      old ∈ store → old.source = it.source → old.source_id = it.source_id →
      upsert_item store it =
        store.map (fun o => if sameSourceKey it o then contentUpdate it o else o)
      ∧ contentUpdate it old ∈ upsert_item store it
      ∧ (contentUpdate it old).is_read = old.is_read
      ∧ (contentUpdate it old).id = old.id
      ∧ (contentUpdate it old).created_at = old.created_at
      ∧ (contentUpdate it old).title = it.title
      ∧ (contentUpdate it old).summary = it.summary
      ∧ (contentUpdate it old).url = it.url
      ∧ (contentUpdate it old).author = it.author
      ∧ (contentUpdate it old).timestamp = it.timestamp
      ∧ (contentUpdate it old).priority = it.priority
      ∧ (contentUpdate it old).metadata = it.metadata
      ∧ (contentUpdate it old).tags = it.tags
      ∧ (contentUpdate it old).updated_at = it.updated_at
      ∧ (∀ b : Bool, upsert_item store it = upsert_item store { it with is_read := b }) := by
  intro store it old hmem hs hsid
  have hkey : sameSourceKey it old = true := by
    simp [sameSourceKey, hs, hsid]
  have hany : store.any (sameSourceKey it) = true :=
    List.any_eq_true.mpr ⟨old, hmem, hkey⟩
  have hmap : upsert_item store it =
      store.map (fun o => if sameSourceKey it o then contentUpdate it o else o) := by
    simp [upsert_item, hany]
  refine ⟨hmap, ?_, rfl, rfl, rfl, rfl, rfl, rfl, rfl, rfl, rfl, rfl, rfl, rfl, ?_⟩
  · rw [hmap]
    have h3 := List.mem_map_of_mem
      (fun o => if sameSourceKey it o then contentUpdate it o else o) hmem
    simpa [hkey] using h3
  · intro b
    have e1 : ∀ o, sameSourceKey { it with is_read := b } o = sameSourceKey it o :=
      fun _ => rfl
    have e2 : ∀ o, contentUpdate { it with is_read := b } o = contentUpdate it o :=
      fun _ => rfl
    have hany' : store.any (sameSourceKey { it with is_read := b }) = true := by
      simpa [e1] using hany
    simp [upsert_item, hany, hany', e1, e2]

/-- Witness for C1: a stored read item keeps `is_read = true` when the same
`(source, source_id)` is re-ingested with `is_read = false` and a new
title, via the theorem at concrete inputs. -/
theorem upsert_item_preserves_read_flag_witness :
    (contentUpdate
        ⟨"jira-TEST-1", "jira", "TEST-1", "ticket", "Updated title", none,
         "https://x", none, 2000, 0, none, none, false, 2000, 2000⟩
        ⟨"jira-TEST-1", "jira", "TEST-1", "ticket", "Fix login bug", none,
         "https://x", none, 1000, 0, none, none, true, 900, 950⟩).is_read = true
    ∧ (contentUpdate
        ⟨"jira-TEST-1", "jira", "TEST-1", "ticket", "Updated title", none,
         "https://x", none, 2000, 0, none, none, false, 2000, 2000⟩
        ⟨"jira-TEST-1", "jira", "TEST-1", "ticket", "Fix login bug", none,
         "https://x", none, 1000, 0, none, none, true, 900, 950⟩).title
      = "Updated title" :=
  ⟨(upsert_item_preserves_read_flag
      [⟨"jira-TEST-1", "jira", "TEST-1", "ticket", "Fix login bug", none,
        "https://x", none, 1000, 0, none, none, true, 900, 950⟩]
      ⟨"jira-TEST-1", "jira", "TEST-1", "ticket", "Updated title", none,
       "https://x", none, 2000, 0, none, none, false, 2000, 2000⟩
      ⟨"jira-TEST-1", "jira", "TEST-1", "ticket", "Fix login bug", none,
       "https://x", none, 1000, 0, none, none, true, 900, 950⟩
      (List.mem_singleton.mpr rfl) rfl rfl).2.2.1,
   (upsert_item_preserves_read_flag
      [⟨"jira-TEST-1", "jira", "TEST-1", "ticket", "Fix login bug", none,
        "https://x", none, 1000, 0, none, none, true, 900, 950⟩]
      ⟨"jira-TEST-1", "jira", "TEST-1", "ticket", "Updated title", none,
       "https://x", none, 2000, 0, none, none, false, 2000, 2000⟩
      ⟨"jira-TEST-1", "jira", "TEST-1", "ticket", "Fix login bug", none,
       "https://x", none, 1000, 0, none, none, true, 900, 950⟩
      (List.mem_singleton.mpr rfl) rfl rfl).2.2.2.2.2.1⟩

/-- No two distinct stored notifications are both active (non-dismissed)
with the same `(item_id, reason)` pair. -/
def activePairDistinct (a b : Notification) : Prop :=
  a.is_dismissed = false → b.is_dismissed = false →
  a.item_id ≠ b.item_id ∨ a.reason ≠ b.reason

/-- Lemma: `has_active_notification` is false exactly when every stored
notification matching the pair is dismissed. -/
theorem has_active_eq_false_iff (store : List Notification) (itemId reason : String) :
    has_active_notification store itemId reason = false ↔
      ∀ n ∈ store, n.item_id = itemId → n.reason = reason → n.is_dismissed = true := by
  rw [has_active_notification]
  constructor
  · intro h n hn hitem hreason
    cases hd : n.is_dismissed
    · exfalso
      have htrue : store.any (fun n =>
          decide (n.item_id = itemId) && decide (n.reason = reason) && !n.is_dismissed) = true :=
        List.any_eq_true.mpr ⟨n, hn, by simp [hitem, hreason, hd]⟩
      rw [htrue] at h
      exact Bool.true_eq_false.mp h
    · rfl
  · intro h
    cases ha : store.any (fun n =>
        decide (n.item_id = itemId) && decide (n.reason = reason) && !n.is_dismissed)
    · rfl
    · exfalso
      obtain ⟨n, hn, hf⟩ := List.any_eq_true.mp ha
      simp only [Bool.and_eq_true, decide_eq_true_eq, Bool.not_eq_true'] at hf
      have hd := h n hn hf.1.1 hf.1.2
      rw [hf.2] at hd
      exact Bool.false_ne_true hd

/-- The persist-phase notification loop preserves the at-most-one-active
invariant: every insertion is guarded by `has_active_notification`. -/
theorem persistNotifications_pairwise (now : Int) (gen : Nat → String) :
    ∀ (pns : List PluginNotification) (k : Nat) (store : List Notification),
      store.Pairwise activePairDistinct →
      (persistNotifications now gen k store pns).Pairwise activePairDistinct := by
  intro pns
  induction pns with
  | nil => intro k store h; exact h
  | cons pn rest ih =>
    intro k store h
    by_cases hact : has_active_notification store pn.item_id pn.reason = true
    · simpa [persistNotifications, hact] using ih k store h
    · have hact' : has_active_notification store pn.item_id pn.reason = false := by
        simpa using hact
      have step : persistNotifications now gen k store (pn :: rest) =
          persistNotifications now gen (k + 1)
            (insert_notification store
              ⟨gen k, pn.item_id, pn.reason, pn.urgency, false, now⟩) rest := by
        simp [persistNotifications, hact']
      rw [step]
      apply ih
      by_cases hid : store.any (fun m => decide (m.id = gen k)) = true
      · simpa [insert_notification, hid] using h
      · have hid' : store.any (fun m => decide (m.id = gen k)) = false := by
          simpa using hid
        have istep : insert_notification store
            ⟨gen k, pn.item_id, pn.reason, pn.urgency, false, now⟩ =
            ⟨gen k, pn.item_id, pn.reason, pn.urgency, false, now⟩ :: store := by
          simp [insert_notification, hid']
        rw [istep]
        refine List.Pairwise.cons ?_ h
        intro m hm _ hmd
        have hall := (has_active_eq_false_iff store pn.item_id pn.reason).mp hact'
        by_cases hitem : m.item_id = pn.item_id
        · by_cases hreason : m.reason = pn.reason
          · have := hall m hm hitem hreason
            rw [hmd] at this
            exact absurd this Bool.false_ne_true
          · exact Or.inr (fun e => hreason e.symm)
        · exact Or.inl (fun e => hitem e.symm)

/-- Claim C2: in the persist phase, a candidate whose `(item_id, reason)`
pair already has an active notification is skipped; a candidate with no
active notification for its pair is inserted with a fresh id; a pair whose
item only carries active notifications with a different reason is not
blocked; and any run of the loop starting from a store with at most one
active notification per pair ends in a store with at most one active
notification per pair. -/
theorem persist_phase_notification_dedup :
    ∀ (now : Int) (gen : Nat → String) (k : Nat) (store : List Notification)
      (pn : PluginNotification) (rest : List PluginNotification),
      (has_active_notification store pn.item_id pn.reason = true →
        persistNotifications now gen k store (pn :: rest) =
          persistNotifications now gen k store rest)
      ∧ (has_active_notification store pn.item_id pn.reason = false →
         store.any (fun m => decide (m.id = gen k)) = false →
         persistNotifications now gen k store (pn :: rest) =
           persistNotifications now gen (k + 1)
             (⟨gen k, pn.item_id, pn.reason, pn.urgency, false, now⟩ :: store) rest)
      ∧ (∀ (itemId reason other : String), other ≠ reason →
          (∀ n ∈ store, n.item_id = itemId → n.is_dismissed = false → n.reason = reason) →
          has_active_notification store itemId other = false)
      ∧ (∀ (pns : List PluginNotification),
          store.Pairwise activePairDistinct →
          (persistNotifications now gen k store pns).Pairwise activePairDistinct) := by
  intro now gen k store pn rest
  refine ⟨?_, ?_, ?_, ?_⟩
  · intro hact
    simp [persistNotifications, hact]
  · intro hact hid
    simp [persistNotifications, hact, insert_notification, hid]
  · intro itemId reason other hne hall
    rw [has_active_eq_false_iff]
    intro n hn hitem hreasonEq
    cases hd : n.is_dismissed
    · exact absurd (hreasonEq.symm.trans (hall n hn hitem hd)) hne
    · rfl
  · intro pns h
    exact persistNotifications_pairwise now gen pns k store h

/-- Witness for C2 at concrete inputs: with one active notification for
`(jira-TEST-1, assigned)`, a duplicate candidate is a no-op and a candidate
with reason `mentioned` for the same item is not blocked. -/
theorem persist_phase_notification_dedup_witness :
    (persistNotifications 0 (fun _ => "u0") 0
        [⟨"n1", "jira-TEST-1", "assigned", "medium", false, 0⟩]
        [⟨"jira-TEST-1", "assigned", "medium"⟩] =
      persistNotifications 0 (fun _ => "u0") 0
        [⟨"n1", "jira-TEST-1", "assigned", "medium", false, 0⟩] [])
    ∧ has_active_notification
        [⟨"n1", "jira-TEST-1", "assigned", "medium", false, 0⟩]
        "jira-TEST-1" "mentioned" = false :=
  ⟨(persist_phase_notification_dedup 0 (fun _ => "u0") 0
      [⟨"n1", "jira-TEST-1", "assigned", "medium", false, 0⟩]
      ⟨"jira-TEST-1", "assigned", "medium"⟩ []).1 (by decide),
   (persist_phase_notification_dedup 0 (fun _ => "u0") 0
      [⟨"n1", "jira-TEST-1", "assigned", "medium", false, 0⟩]
      ⟨"jira-TEST-1", "assigned", "medium"⟩ []).2.2.1
     "jira-TEST-1" "assigned" "mentioned" (by decide)
     (by intro n hn hitem hdism
         simp only [List.mem_singleton] at hn
         rw [hn])⟩

/-- Claim C5: the heartbeat candidates are exactly the stored configs that
are enabled with credentials and whose interval has elapsed; with a recorded
last poll the plugin is due exactly when `now - last >= poll_interval_secs`,
and a never-polled plugin is always due (its elapsed time is `i64::MAX`,
and any representable interval is at most `i64::MAX`). -/
theorem due_check_correct :
    ∀ (configs : List PluginConfig) (now : Int) (c : PluginConfig),
      (c ∈ heartbeatDuePlugins configs now ↔
        c ∈ configs ∧ c.is_enabled = true ∧ c.credentials.isSome = true ∧ isDue c now = true)
      ∧ (∀ last, c.last_poll_at = some last →
          (isDue c now = true ↔ now - last ≥ c.poll_interval_secs))
      ∧ (c.last_poll_at = none → c.poll_interval_secs ≤ i64Max → isDue c now = true) := by
  intro configs now c
  refine ⟨?_, ?_, ?_⟩
  · simp only [heartbeatDuePlugins, get_enabled_plugin_configs, List.mem_filter,
      Bool.and_eq_true]
    tauto
  · intro last hlast
    constructor
    · intro h
      by_cases hlt : now - last < c.poll_interval_secs
      · simp [isDue, hlast, hlt] at h
      · omega
    · intro h
      simp [isDue, hlast]
      omega
  · intro hnone hle
    rw [i64Max] at hle
    simp [isDue, hnone, i64Max]
    omega

/-- Witness for C5 at concrete inputs: the spec scenario
`poll_interval_secs = 600`, `last_poll_at = now - 700` is due, and a
never-polled plugin is due. -/
theorem due_check_correct_witness :
    (isDue ⟨"jira", true, some "c", 600, some 300, none, 0, none⟩ 1000 = true ↔
      (1000 : Int) - 300 ≥ 600)
    ∧ isDue ⟨"jira", true, some "c", 600, none, none, 0, none⟩ 1000 = true :=
  ⟨(due_check_correct [] 1000 ⟨"jira", true, some "c", 600, some 300, none, 0, none⟩).2.1
      300 rfl,
   (due_check_correct [] 1000 ⟨"jira", true, some "c", 600, none, none, 0, none⟩).2.2
      rfl (by decide)⟩

/-- The concrete settings table used to exercise focus mode with threshold
`high`: focus mode enabled, threshold `high`, no quiet hours stored. -/
def focusHighGet : GetSetting := fun k =>
  if k = "focus_mode_enabled" then .ok (some "1")
  else if k = "focus_mode_threshold" then .ok (some "high")
  else .ok none

/-- Claim C7: quiet hours are checked before focus mode and suppress every
urgency; outside quiet hours, enabled focus mode admits exactly the
urgencies whose rank reaches the threshold rank (threshold defaulting to
`high`); the ranks are critical 4, high 3, medium 2, low 1, unknown 0; and
with threshold `high`, critical and high pass while medium and low are
rejected. -/
theorem focus_mode_after_quiet_hours :
    (∀ (get : GetSetting) (now u s e : String),
      get "quiet_hours_start" = .ok (some s) →
      get "quiet_hours_end" = .ok (some e) →
      is_in_quiet_hours s e now = true →
      should_send_notification get now u = false)
    ∧ (∀ (get : GetSetting) (now u : String),
        (∀ s e, get "quiet_hours_start" = .ok (some s) →
          get "quiet_hours_end" = .ok (some e) →
          is_in_quiet_hours s e now = false) →
        ((get "focus_mode_enabled").toOption.join).getD "" = "1" →
        should_send_notification get now u =
          urgency_meets_threshold u
            (((get "focus_mode_threshold").toOption.join).getD "high"))
    ∧ (urgency_level "critical" = 4 ∧ urgency_level "high" = 3
        ∧ urgency_level "medium" = 2 ∧ urgency_level "low" = 1
        ∧ urgency_level "unknown" = 0)
    ∧ (∀ u threshold,
        urgency_meets_threshold u threshold = true ↔
          urgency_level u ≥ urgency_level threshold)
    ∧ (∀ now, should_send_notification focusHighGet now "critical" = true
        ∧ should_send_notification focusHighGet now "high" = true
        ∧ should_send_notification focusHighGet now "medium" = false
        ∧ should_send_notification focusHighGet now "low" = false) := by
  refine ⟨?_, ?_, by decide, ?_, ?_⟩
  · intro get now u s e hs he hq
    rw [should_send_notification, hs, he]
    simp [hq]
  · intro get now u hquiet hfocus
    have hgate : focusGate get u =
        urgency_meets_threshold u
          (((get "focus_mode_threshold").toOption.join).getD "high") := by
      rw [focusGate]
      simp only [hfocus, if_true]
    rw [should_send_notification]
    rcases hs : get "quiet_hours_start" with es | os
    · exact hgate
    · rcases os with _ | s
      · exact hgate
      · rcases he : get "quiet_hours_end" with ee | oe
        · exact hgate
        · rcases oe with _ | e
          · exact hgate
          · have hq := hquiet s e hs he
            simp [hq, hgate]
  · intro u threshold
    simp [urgency_meets_threshold]
  · intro now
    exact ⟨rfl, rfl, rfl, rfl⟩

/-- Witness for C7 at concrete inputs: with quiet hours 22:00-06:00 stored
and the clock at 23:30, a critical notification is suppressed; and the
focus-mode branch computes the threshold comparison when quiet hours are
not active. -/
theorem focus_mode_after_quiet_hours_witness :
    should_send_notification
      (fun k => if k = "quiet_hours_start" then .ok (some "22:00")
                else if k = "quiet_hours_end" then .ok (some "06:00")
                else .ok none)
      "23:30" "critical" = false
    ∧ should_send_notification focusHighGet "12:00" "medium" =
        urgency_meets_threshold "medium"
          (((focusHighGet "focus_mode_threshold").toOption.join).getD "high") :=
  ⟨focus_mode_after_quiet_hours.1
      (fun k => if k = "quiet_hours_start" then .ok (some "22:00")
                else if k = "quiet_hours_end" then .ok (some "06:00")
                else .ok none)
      "23:30" "critical" "22:00" "06:00" rfl rfl (by decide),
   focus_mode_after_quiet_hours.2.1 focusHighGet "12:00" "medium"
      (fun s e hs he => by
        rw [show focusHighGet "quiet_hours_start" = .ok none from rfl] at hs
        exact absurd hs (by simp))
      rfl⟩

/-- Claim C10: quiet-hours suppression requires both settings to read back
`Ok(Some _)`; if either read fails or is absent, the decision is exactly
the focus-mode gate, and with focus mode not enabled every notification is
allowed. -/
theorem quiet_hours_needs_both_settings :
    ∀ (get : GetSetting) (now u : String),
      ((∀ s, get "quiet_hours_start" ≠ .ok (some s)) ∨
        (∀ e, get "quiet_hours_end" ≠ .ok (some e))) →
      should_send_notification get now u = focusGate get u
      ∧ (((get "focus_mode_enabled").toOption.join).getD "" ≠ "1" →
          should_send_notification get now u = true) := by
  intro get now u hmiss
  have hmain : should_send_notification get now u = focusGate get u := by
    rw [should_send_notification]
    rcases hs : get "quiet_hours_start" with es | os
    · rfl
    · rcases os with _ | s
      · rfl
      · rcases he : get "quiet_hours_end" with ee | oe
        · rfl
        · rcases oe with _ | e
          · rfl
          · rcases hmiss with hmiss | hmiss
            · exact absurd hs (hmiss s)
            · exact absurd he (hmiss e)
  refine ⟨hmain, ?_⟩
  intro hoff
  rw [hmain, focusGate]
  simp only [if_neg hoff]

/-- Witness for C10 at concrete inputs: with a failing read of
`quiet_hours_start` (and focus mode off), every notification is allowed
even at a time that would fall inside the stored window. -/
theorem quiet_hours_needs_both_settings_witness :
    should_send_notification
      (fun k => if k = "quiet_hours_end" then .ok (some "06:00") else .error ())
      "23:30" "low" = true :=
  (quiet_hours_needs_both_settings
      (fun k => if k = "quiet_hours_end" then .ok (some "06:00") else .error ())
      "23:30" "low"
      (Or.inl (fun s h => by
        rw [show (fun k => if k = "quiet_hours_end" then
              (.ok (some "06:00") : Except Unit (Option String))
            else .error ()) "quiet_hours_start" = .error () from rfl] at h
        exact absurd h (by simp)))).2 (by decide)

/-- Claim C4: a JSON object missing the `items` or the `notifications` key
fails to parse (no empty-array default), and when parsing fails inside
`poll_plugin`, the call returns an error with the Store unchanged. -/
theorem parse_failure_leaves_store_unchanged :
    (∀ fields : List (String × Json),
      lookupField fields "items" = none ∨ lookupField fields "notifications" = none →
      ∃ e, parse_plugin_result (some (.obj fields)) = .error e)
    ∧ (∀ (store : Store) (pluginId : String) (fileExists : Bool)
        (raw : Option Json) (now : Int) (gen : Nat → String) (e : String),
        parse_plugin_result raw = .error e →
        ∃ e', poll_plugin store pluginId fileExists (.ok raw) now gen =
          (store, .error e')) := by
  constructor
  · intro fields hmiss
    rcases hmiss with hmiss | hmiss
    · refine ⟨"Failed to parse plugin result: missing field items", ?_⟩
      simp only [parse_plugin_result, decodePluginResult, reqField, hmiss]
      rfl
    · cases hitems : lookupField fields "items" with
      | none =>
        refine ⟨"Failed to parse plugin result: missing field items", ?_⟩
        simp only [parse_plugin_result, decodePluginResult, reqField, hitems]
        rfl
      | some ji =>
        cases hdec : decodeListWith decodePluginItem ji with
        | error ei =>
          refine ⟨"Failed to parse plugin result: " ++ ei, ?_⟩
          simp only [parse_plugin_result, decodePluginResult, reqField, hitems, hdec]
          rfl
        | ok items =>
          refine ⟨"Failed to parse plugin result: missing field notifications", ?_⟩
          simp only [parse_plugin_result, decodePluginResult, reqField, hitems, hdec, hmiss]
          rfl
  · intro store pluginId fileExists raw now gen e h
    rw [poll_plugin]
    cases hc : get_plugin_config store.configs pluginId with
    | none => exact ⟨_, rfl⟩
    | some config =>
      by_cases hen : config.is_enabled
      · cases hcred : config.credentials with
        | none => simp [hen, hcred]
        | some cred =>
          by_cases hfe : fileExists
          · simp only [hen, hcred, hfe, Bool.not_true, Bool.false_eq_true,
              if_false, h]
            exact ⟨_, rfl⟩
          · simp [hen, hcred, hfe]
      · simp [hen]

/-- Witness for C4 at a concrete input: the spec scenario
`\x7b"items":[]\x7d` (missing `notifications`) fails to parse and a
`poll_plugin` run on it leaves the Store untouched. -/
theorem parse_failure_leaves_store_unchanged_witness :
    (∃ e, parse_plugin_result (some (.obj [("items", Json.arr [])])) = .error e)
    ∧ (∃ e', poll_plugin ⟨[], [], []⟩ "jira" true
        (.ok (some (.obj [("items", Json.arr [])]))) 0 (fun _ => "u0") =
        (⟨[], [], []⟩, .error e')) :=
  ⟨parse_failure_leaves_store_unchanged.1 [("items", Json.arr [])] (Or.inr rfl),
   parse_failure_leaves_store_unchanged.2 ⟨[], [], []⟩ "jira" true
     (some (.obj [("items", Json.arr [])])) 0 (fun _ => "u0")
     "Failed to parse plugin result: missing field notifications" rfl⟩

/-- A 201-byte input whose byte 200 falls inside a two-byte UTF-8
character: 199 ASCII `a` bytes followed by the two bytes of `é`. -/
def previewPanicInput : List Nat := List.replicate 199 97 ++ [195, 169]

set_option maxRecDepth 10000 in
/-- Claim C9 (refuted; the code is at fault): `parse_plugin_result` is not
total. On an input longer than 200 bytes whose byte index 200 is not a
character boundary, the error-path preview slice `&json[..200]` panics
(modelled as `none`): the input below has 201 bytes, byte 200 is the UTF-8
continuation byte `0xA9`, and `payload_preview` reaches the panic. -/
theorem payload_preview_panics_on_multibyte :
    previewPanicInput.length = 201
    ∧ is_char_boundary previewPanicInput 200 = false
    ∧ payload_preview previewPanicInput = none := by
  refine ⟨by decide, by decide, by decide⟩

end Nexus
